import Mathlib

/-!
Verification of the fastapi-template CRUD service (Task / Character / Jutsu).

Shallow embedding of the repository's service layer
(app/services/character_service.py, app/services/jutsu_service.py,
app/services/task_service.py), its schema layer (app/schemas.py), its
ORM models (app/models.py), and its route table (main.py,
app/routers/api.py).

Conventions of the embedding:
- The database session is a pure `Store` value threaded through each
  operation; an operation returns `Except PyExc (result × Store)`.
  An error outcome leaves the caller with the unchanged store, which
  matches the rollback behaviour of an uncommitted SQLAlchemy session
  (every raise in the sources happens before or instead of a commit,
  apart from none).
- Python exceptions are the `PyExc` type: `http` embeds
  fastapi.HTTPException, `attributeError` embeds AttributeError, and
  `internal` embeds an arbitrary store/runtime failure.  An arbitrary
  failure of the store at its next access is injected through a
  `fault : Option String` parameter carrying the internal message text;
  `none` means the store operates normally.
- Each `try/except` block of the sources becomes `guardHTTP`
  (except HTTPException: raise / except Exception: generic) or
  `guardAll` (only except Exception: generic), matching exactly which
  clauses the source method declares.
- `datetime.now(timezone.utc)` is an explicit `now : Nat` parameter;
  timestamps are naturals.
- Python dynamic attribute access on a pydantic model is `getattr`
  over the model's declared field list: reading an undeclared
  attribute raises AttributeError, as pydantic models do.
-/

namespace App

/-- HTTP error payload carried by fastapi.HTTPException. -/
structure HTTPError where
  status_code : Nat
  detail : String
deriving DecidableEq

/-- The Python exceptions the service layer can raise. -/
inductive PyExc where
  | http (e : HTTPError)
  | attributeError (attr : String)
  | internal (msg : String)
deriving DecidableEq

/-- Injected store failure: the next session access raises an internal
exception carrying the given message (models an unexpected
SQLAlchemy/DB error); `none` means the store works normally. -/
def checkFault : Option String → Except PyExc Unit
  | some msg => Except.error (PyExc.internal msg)
  | none => Except.ok ()

/-- Embedding of `try: body / except HTTPException: raise /
except Exception: raise HTTPException(code, detail)`. -/
def guardHTTP (body : Except PyExc α) (code : Nat) (detail : String) : Except PyExc α :=
  match body with
  | Except.ok a => Except.ok a
  | Except.error (PyExc.http e) => Except.error (PyExc.http e)
  | Except.error _ => Except.error (PyExc.http ⟨code, detail⟩)

/-- Embedding of `try: body / except Exception:
raise HTTPException(code, detail)` (no re-raise clause for
HTTPException: an HTTPException raised in the body is masked too). -/
def guardAll (body : Except PyExc α) (code : Nat) (detail : String) : Except PyExc α :=
  match body with
  | Except.ok a => Except.ok a
  | Except.error _ => Except.error (PyExc.http ⟨code, detail⟩)

/-- A Python runtime value, as far as the embedded code inspects one. -/
inductive PyValue where
  | vnone
  | vint (i : Int)
  | vstr (s : String)
deriving DecidableEq

/-- Python truthiness for the values above. -/
def PyValue.truthy : PyValue → Bool
  | PyValue.vnone => false
  | PyValue.vint i => if i = 0 then false else true
  | PyValue.vstr s => if s = "" then false else true

/-- Does the needle match at the head of the haystack. -/
def charsMatchAt : List Char → List Char → Bool
  | [], _ => true
  | _ :: _, [] => false
  | a :: as, b :: bs => a = b && charsMatchAt as bs

/-- Contiguous containment of a character list in another. -/
def charsContain : List Char → List Char → Bool
  | [], needle => needle.isEmpty
  | h :: t, needle => charsMatchAt needle (h :: t) || charsContain t needle

/-- Embedding of the SQL substring filter produced by
`Column.contains(term)` (LIKE with the term between wildcards). -/
def strContains (hay needle : String) : Bool :=
  charsContain hay.toList needle.toList

/-- Remove the first element satisfying the predicate; embedding of
`session.delete(obj)` where obj is the row previously fetched by id. -/
def removeFirst (p : α → Bool) : List α → List α
  | [] => []
  | a :: t => if p a then t else a :: removeFirst p t

/-- Rows of a query ordered ascending by the given key; embedding of
`query.order_by(Model.id)`. -/
def sortByKey (key : α → Int) (l : List α) : List α :=
  List.insertionSort (fun a b => key a ≤ key b) l

/-! ## ORM models (app/models.py) -/

/-- Character row (app/models.py lines 9-18). -/
structure Character where
  id : Int
  name : String
  village : String
  rank : Option String := none
  created_at : Nat
  updated_at : Nat
deriving DecidableEq

/-- Jutsu row (app/models.py lines 21-31); chakra_cost has model
default 10 and character_id is a nullable foreign key. -/
structure Jutsu where
  id : Int
  name : String
  type : String
  chakra_cost : Int := 10
  created_at : Nat
  updated_at : Nat
  character_id : Option Int := none
deriving DecidableEq

/-- Modelled from the spec: TaskStatus enumeration
(pending, in_progress, completed, cancelled).  The repository has no
app.models.Task / task schemas: task_service.py imports
app.models.Task and app.schemas.TaskCreate/TaskUpdate, but neither
models.py nor schemas.py defines them, so the enumeration is taken
from spec section 4.2.  Its members compare to Python strings by
their value string (str-valued enum). -/
inductive TaskStatus where
  | pending
  | in_progress
  | completed
  | cancelled
deriving DecidableEq

/-- The value string of a TaskStatus member, used by the string
comparisons in TaskService.update. -/
def TaskStatus.pyStr : TaskStatus → String
  | TaskStatus.pending => "pending"
  | TaskStatus.in_progress => "in_progress"
  | TaskStatus.completed => "completed"
  | TaskStatus.cancelled => "cancelled"

/-- Modelled from the spec: TaskPriority enumeration (low, medium,
high); absent from the repository like the rest of the Task data
model. -/
inductive TaskPriority where
  | low
  | medium
  | high
deriving DecidableEq

/-- Modelled from the spec: the Task row (spec section 3) — id, title,
optional description, optional start_date/end_date set only by status
transitions, status defaulting to pending, priority defaulting to
medium, immutable created_at.  app.models.Task is absent from the
repository although task_service.py operates on it. -/
structure Task where
  id : Int
  title : String
  description : Option String := none
  start_date : Option Nat := none
  end_date : Option Nat := none
  status : TaskStatus := TaskStatus.pending
  priority : TaskPriority := TaskPriority.medium
  created_at : Nat
deriving DecidableEq

/-! ## Request schemas (app/schemas.py) -/

/-- JutsuCreate (app/schemas.py lines 8-11 and 21-22): name, type and
chakra_cost are all required fields; the schema declares no
character_id. -/
structure JutsuCreate where
  name : String
  type : String
  chakra_cost : Int
deriving DecidableEq

/-- Python attribute access on a JutsuCreate: only the three declared
fields exist; any other attribute raises AttributeError. -/
def JutsuCreate.getattr (j : JutsuCreate) (attr : String) : Except PyExc PyValue :=
  if attr = "name" then Except.ok (PyValue.vstr j.name)
  else if attr = "type" then Except.ok (PyValue.vstr j.type)
  else if attr = "chakra_cost" then Except.ok (PyValue.vint j.chakra_cost)
  else Except.error (PyExc.attributeError attr)

/-- JutsuUpdate (app/schemas.py lines 25-28): optional name, type and
chakra_cost; a `none` field stands for a field absent from the request
body (pydantic model_dump with exclude_unset drops it).  The schema
declares no character_id. -/
structure JutsuUpdate where
  name : Option String := none
  type : Option String := none
  chakra_cost : Option Int := none
deriving DecidableEq

/-- Python attribute access on a JutsuUpdate: only the three declared
fields exist; any other attribute raises AttributeError. -/
def JutsuUpdate.getattr (u : JutsuUpdate) (attr : String) : Except PyExc PyValue :=
  if attr = "name" then Except.ok (match u.name with | some v => PyValue.vstr v | none => PyValue.vnone)
  else if attr = "type" then Except.ok (match u.type with | some v => PyValue.vstr v | none => PyValue.vnone)
  else if attr = "chakra_cost" then Except.ok (match u.chakra_cost with | some v => PyValue.vint v | none => PyValue.vnone)
  else Except.error (PyExc.attributeError attr)

/-- CharacterCreate (app/schemas.py lines 14-17 and 31-32). -/
structure CharacterCreate where
  name : String
  village : String
  rank : Option String := none
deriving DecidableEq

/-- CharacterUpdate (app/schemas.py lines 35-38); the outer Option is
request-body presence (exclude_unset), the inner Option of rank is its
nullability. -/
structure CharacterUpdate where
  name : Option String := none
  village : Option String := none
  rank : Option (Option String) := none
deriving DecidableEq

/-- Modelled from the spec: TaskCreate — title required, optional
description, status and priority with the documented defaults
(app.schemas.TaskCreate is absent from the repository). -/
structure TaskCreate where
  title : String
  description : Option String := none
  status : TaskStatus := TaskStatus.pending
  priority : TaskPriority := TaskPriority.medium
deriving DecidableEq

/-- Modelled from the spec: TaskUpdate — every client-writable Task
field optional, `none` meaning absent from the request body;
start_date/end_date are not client-writable and so have no field
(app.schemas.TaskUpdate is absent from the repository). -/
structure TaskUpdate where
  title : Option String := none
  description : Option (Option String) := none
  status : Option TaskStatus := none
  priority : Option TaskPriority := none
deriving DecidableEq

/-- Page envelope (app/schemas.py lines 67-74). -/
structure PageResponse (α : Type) where
  items : List α
  total : Nat
  page : Nat
  size : Nat
  pages : Nat
  has_next : Bool
  has_prev : Bool
deriving DecidableEq

/-! ## The store -/

/-- The relational store backing the three entity tables, with the
monotone id sequences the engine uses for primary keys. -/
structure Store where
  characters : List Character := []
  jutsus : List Jutsu := []
  tasks : List Task := []
  next_character_id : Int := 1
  next_jutsu_id : Int := 1
  next_task_id : Int := 1
deriving DecidableEq

/-- Embedding of `session.get(Character, id)`. -/
def Store.getCharacter (s : Store) (id : Int) : Option Character :=
  s.characters.find? (fun c => c.id = id)

/-- Embedding of `session.get(Jutsu, id)`. -/
def Store.getJutsu (s : Store) (id : Int) : Option Jutsu :=
  s.jutsus.find? (fun j => j.id = id)

/-- Embedding of `session.get(Task, id)`. -/
def Store.getTask (s : Store) (id : Int) : Option Task :=
  s.tasks.find? (fun t => t.id = id)

/-- Commit of a mutated Character row fetched by id
(session.add + session.commit on an update flow). -/
def Store.setCharacter (s : Store) (id : Int) (c : Character) : Store :=
  { s with characters := s.characters.map (fun x => if x.id = id then c else x) }

/-- Commit of a mutated Jutsu row fetched by id. -/
def Store.setJutsu (s : Store) (id : Int) (j : Jutsu) : Store :=
  { s with jutsus := s.jutsus.map (fun x => if x.id = id then j else x) }

/-- Commit of a mutated Task row fetched by id. -/
def Store.setTask (s : Store) (id : Int) (t : Task) : Store :=
  { s with tasks := s.tasks.map (fun x => if x.id = id then t else x) }

/-! ## Applying a partial update (the setattr loop over
model_dump(exclude_unset=True)) -/

/-- The setattr loop of CharacterService.update (lines 104-106): only
fields present in the request body are written. -/
def Character.applyUpdate (c : Character) (u : CharacterUpdate) : Character :=
  let c := match u.name with | some v => { c with name := v } | none => c
  let c := match u.village with | some v => { c with village := v } | none => c
  match u.rank with | some v => { c with rank := v } | none => c

/-- The setattr loop of JutsuService.update (lines 122-124). -/
def Jutsu.applyUpdate (j : Jutsu) (u : JutsuUpdate) : Jutsu :=
  let j := match u.name with | some v => { j with name := v } | none => j
  let j := match u.type with | some v => { j with type := v } | none => j
  match u.chakra_cost with | some v => { j with chakra_cost := v } | none => j

/-- The setattr loop of TaskService.update (lines 104-106). -/
def Task.applyUpdate (t : Task) (u : TaskUpdate) : Task :=
  let t := match u.title with | some v => { t with title := v } | none => t
  let t := match u.description with | some v => { t with description := v } | none => t
  let t := match u.status with | some v => { t with status := v } | none => t
  match u.priority with | some v => { t with priority := v } | none => t

/-- The status-transition stamping of TaskService.update
(lines 108-112), run when the request body carried a status field:
the value string "in_progress" stamps start_date with the current
time; membership in the literal list ["completed", "canceled"] stamps
end_date.  The enumeration member cancelled renders as "cancelled",
which is not in that list. -/
def Task.stampDates (t : Task) (ustatus : Option TaskStatus) (now : Nat) : Task :=
  match ustatus with
  | some st =>
    if st.pyStr = "in_progress" then { t with start_date := some now }
    else if st.pyStr = "completed" ∨ st.pyStr = "canceled" then { t with end_date := some now }
    else t
  | none => t

/-! ## Pagination (the identical block of the three get_all methods) -/

/-- The pagination block shared verbatim by the three get_all methods
(e.g. character_service.py lines 51-73): total counted before
pagination, pages = (total + size - 1) // size, offset =
(page - 1) * size, items = offset/limit slice, has_next = page < pages,
has_prev = page > 1. -/
def paginate (rows : List α) (page size : Nat) : PageResponse α :=
  let total := rows.length
  let pages := (total + size - 1) / size
  let offset := (page - 1) * size
  { items := (rows.drop offset).take size
    total := total
    page := page
    size := size
    pages := pages
    has_next := decide (page < pages)
    has_prev := decide (1 < page) }

/-- The filtered, ordered character query of
CharacterService.get_all (lines 40-49): optional substring search on
name or village, ordered ascending by id. -/
def characterQueryRows (s : Store) (search : Option String) : List Character :=
  sortByKey (fun c => c.id)
    (match search with
     | some t =>
       if t = "" then s.characters
       else s.characters.filter (fun c => strContains c.name t || strContains c.village t)
     | none => s.characters)

/-- The filtered, ordered jutsu query of JutsuService.get_all
(lines 49-58): optional substring search on name, optional
character_id equality filter (a NULL character_id never matches),
ordered ascending by id. -/
def jutsuQueryRows (s : Store) (search : Option String) (character_id : Option Int) : List Jutsu :=
  let rows := match search with
    | some t => if t = "" then s.jutsus else s.jutsus.filter (fun j => strContains j.name t)
    | none => s.jutsus
  let rows := match character_id with
    | some cid =>
      if cid = 0 then rows
      else rows.filter (fun j => match j.character_id with | some x => x = cid | none => false)
    | none => rows
  sortByKey (fun j => j.id) rows

/-- The filtered, ordered task query of TaskService.get_all
(lines 42-49): optional substring search on title, ordered ascending
by id. -/
def taskQueryRows (s : Store) (search : Option String) : List Task :=
  sortByKey (fun t => t.id)
    (match search with
     | some t =>
       if t = "" then s.tasks
       else s.tasks.filter (fun x => strContains x.title t)
     | none => s.tasks)

/-! ## CharacterService (app/services/character_service.py) -/

/-- CharacterService.create (lines 18-31): builds the row from the
payload (model defaults fill id, created_at, updated_at), commits,
returns it.  Only `except Exception` guards the body. -/
def CharacterService.create (s : Store) (c : CharacterCreate) (now : Nat) (fault : Option String) :
    Except PyExc (Character × Store) :=
  guardAll (do
    let dbc : Character :=
      { id := s.next_character_id, name := c.name, village := c.village, rank := c.rank,
        created_at := now, updated_at := now }
    checkFault fault
    pure (dbc, { s with characters := s.characters ++ [dbc],
                        next_character_id := s.next_character_id + 1 }))
    400 "Could not create character"

/-- CharacterService.get_all (lines 33-79). -/
def CharacterService.get_all (s : Store) (page size : Nat) (search : Option String)
    (fault : Option String) : Except PyExc (PageResponse Character) :=
  guardAll (do
    checkFault fault
    pure (paginate (characterQueryRows s search) page size))
    500 "Error retrieving characters"

/-- CharacterService.get_by_id (lines 81-98). -/
def CharacterService.get_by_id (s : Store) (character_id : Int) (fault : Option String) :
    Except PyExc Character :=
  guardHTTP (do
    checkFault fault
    match s.getCharacter character_id with
    | some c => pure c
    | none => Except.error (PyExc.http ⟨404, "Character not found"⟩))
    500 "Error retrieving character"

/-- CharacterService.update (lines 100-121): fetch through get_by_id,
apply the present fields, commit.  updated_at is not refreshed. -/
def CharacterService.update (s : Store) (character_id : Int) (u : CharacterUpdate)
    (fault : Option String) : Except PyExc (Character × Store) :=
  guardHTTP (do
    let db ← CharacterService.get_by_id s character_id fault
    let db := db.applyUpdate u
    checkFault fault
    pure (db, s.setCharacter character_id db))
    400 "Could not update character"

/-- CharacterService.delete (lines 123-136): fetch through get_by_id,
remove that row, commit.  No touch of the jutsu table. -/
def CharacterService.delete (s : Store) (character_id : Int) (fault : Option String) :
    Except PyExc (Unit × Store) :=
  guardHTTP (do
    let _ ← CharacterService.get_by_id s character_id fault
    checkFault fault
    pure ((), { s with characters := removeFirst (fun c => c.id = character_id) s.characters }))
    500 "Could not delete character"

/-- CharacterService.add_jutsu (lines 139-159): verify the character
through get_by_id, build the jutsu with character_id set to the path
id, commit, return it. -/
def CharacterService.add_jutsu (s : Store) (character_id : Int) (j : JutsuCreate) (now : Nat)
    (fault : Option String) : Except PyExc (Jutsu × Store) :=
  guardHTTP (do
    let _ ← CharacterService.get_by_id s character_id fault
    let dbj : Jutsu :=
      { id := s.next_jutsu_id, name := j.name, type := j.type, chakra_cost := j.chakra_cost,
        created_at := now, updated_at := now, character_id := some character_id }
    checkFault fault
    pure (dbj, { s with jutsus := s.jutsus ++ [dbj], next_jutsu_id := s.next_jutsu_id + 1 }))
    400 "Could not add jutsu to character"

/-! ## JutsuService (app/services/jutsu_service.py) -/

/-- JutsuService.create (lines 17-39): reads jutsu.character_id — an
attribute the JutsuCreate schema does not declare — before anything
else; only `except Exception` guards the body, so every raise becomes
the generic 400. -/
def JutsuService.create (s : Store) (j : JutsuCreate) (now : Nat) (fault : Option String) :
    Except PyExc (Jutsu × Store) :=
  guardAll (do
    let cidv ← JutsuCreate.getattr j "character_id"
    if cidv.truthy then
      match cidv with
      | PyValue.vint i =>
        match s.getCharacter i with
        | some _ => pure ()
        | none => Except.error (PyExc.http ⟨404, "Character not found"⟩)
      | _ => pure ()
    else
      pure ()
    let dbj : Jutsu :=
      { id := s.next_jutsu_id, name := j.name, type := j.type, chakra_cost := j.chakra_cost,
        created_at := now, updated_at := now }
    checkFault fault
    pure (dbj, { s with jutsus := s.jutsus ++ [dbj], next_jutsu_id := s.next_jutsu_id + 1 }))
    400 "Could not create jutsu"

/-- JutsuService.get_all (lines 41-88). -/
def JutsuService.get_all (s : Store) (page size : Nat) (search : Option String)
    (character_id : Option Int) (fault : Option String) :
    Except PyExc (PageResponse Jutsu) :=
  guardAll (do
    checkFault fault
    pure (paginate (jutsuQueryRows s search character_id) page size))
    500 "Error retrieving jutsus"

/-- JutsuService.get_by_id (lines 90-107). -/
def JutsuService.get_by_id (s : Store) (jutsu_id : Int) (fault : Option String) :
    Except PyExc Jutsu :=
  guardHTTP (do
    checkFault fault
    match s.getJutsu jutsu_id with
    | some j => pure j
    | none => Except.error (PyExc.http ⟨404, "Jutsu not found"⟩))
    500 "Error retrieving jutsu"

/-- JutsuService.update (lines 109-138): fetch through get_by_id, then
read jutsu_update.character_id — an attribute the JutsuUpdate schema
does not declare — before the setattr loop. -/
def JutsuService.update (s : Store) (jutsu_id : Int) (u : JutsuUpdate)
    (fault : Option String) : Except PyExc (Jutsu × Store) :=
  guardHTTP (do
    let db ← JutsuService.get_by_id s jutsu_id fault
    let cidv ← JutsuUpdate.getattr u "character_id"
    if cidv = PyValue.vnone then
      pure ()
    else
      match cidv with
      | PyValue.vint i =>
        match s.getCharacter i with
        | some _ => pure ()
        | none => Except.error (PyExc.http ⟨404, "Character not found"⟩)
      | _ => pure ()
    let db := db.applyUpdate u
    checkFault fault
    pure (db, s.setJutsu jutsu_id db))
    400 "Could not update jutsu"

/-- JutsuService.delete (lines 140-153). -/
def JutsuService.delete (s : Store) (jutsu_id : Int) (fault : Option String) :
    Except PyExc (Unit × Store) :=
  guardHTTP (do
    let _ ← JutsuService.get_by_id s jutsu_id fault
    checkFault fault
    pure ((), { s with jutsus := removeFirst (fun j => j.id = jutsu_id) s.jutsus }))
    500 "Could not delete jutsu"

/-! ## TaskService (app/services/task_service.py); the Task row type
is modelled from the spec because the repository lacks it. -/

/-- TaskService.create (lines 18-33): builds the row from task.dict()
(all schema fields, defaults included), commits, returns it. -/
def TaskService.create (s : Store) (t : TaskCreate) (now : Nat) (fault : Option String) :
    Except PyExc (Task × Store) :=
  guardAll (do
    let dbt : Task :=
      { id := s.next_task_id, title := t.title, description := t.description,
        start_date := none, end_date := none, status := t.status, priority := t.priority,
        created_at := now }
    checkFault fault
    pure (dbt, { s with tasks := s.tasks ++ [dbt], next_task_id := s.next_task_id + 1 }))
    400 "Could not create task"

/-- TaskService.get_all (lines 35-79). -/
def TaskService.get_all (s : Store) (page size : Nat) (search : Option String)
    (fault : Option String) : Except PyExc (PageResponse Task) :=
  guardAll (do
    checkFault fault
    pure (paginate (taskQueryRows s search) page size))
    500 "Error retrieving tasks"

/-- TaskService.get_by_id (lines 81-98). -/
def TaskService.get_by_id (s : Store) (task_id : Int) (fault : Option String) :
    Except PyExc Task :=
  guardHTTP (do
    checkFault fault
    match s.getTask task_id with
    | some t => pure t
    | none => Except.error (PyExc.http ⟨404, "Task not found"⟩))
    500 "Error retrieving task"

/-- TaskService.update (lines 100-126): fetch through get_by_id, apply
the present fields, then the status-transition stamps — note the code
compares the status value string against the spelling "canceled" while
the enumeration spells "cancelled". -/
def TaskService.update (s : Store) (task_id : Int) (u : TaskUpdate) (now : Nat)
    (fault : Option String) : Except PyExc (Task × Store) :=
  guardHTTP (do
    let db ← TaskService.get_by_id s task_id fault
    let db := db.applyUpdate u
    let db := db.stampDates u.status now
    checkFault fault
    pure (db, s.setTask task_id db))
    400 "Could not update task"

/-- TaskService.delete (lines 128-141). -/
def TaskService.delete (s : Store) (task_id : Int) (fault : Option String) :
    Except PyExc (Unit × Store) :=
  guardHTTP (do
    let _ ← TaskService.get_by_id s task_id fault
    checkFault fault
    pure ((), { s with tasks := removeFirst (fun t => t.id = task_id) s.tasks }))
    500 "Could not delete task"

/-! ## The HTTP route table (app/routers/api.py, app/routers/health.py,
main.py) -/

/-- A registered route: HTTP method and full path. -/
structure Route where
  method : String
  path : String
deriving DecidableEq

/-- Settings.api_v1_prefix default (app/config.py line 9). -/
def settingsApiV1 : String := "/api/v1"

/-- Routes of character_router (api.py lines 16, 21-148), its own
path piece "/characters" applied. -/
def characterRouterRoutes : List Route := [
  ⟨"POST", "/characters/"⟩,
  ⟨"GET", "/characters/"⟩,
  ⟨"GET", "/characters/{character_id}"⟩,
  ⟨"PATCH", "/characters/{character_id}"⟩,
  ⟨"DELETE", "/characters/{character_id}"⟩,
  ⟨"POST", "/characters/{character_id}/jutsus"⟩ ]

/-- Routes of jutsu_router (api.py lines 17, 151-260). -/
def jutsuRouterRoutes : List Route := [
  ⟨"POST", "/jutsus/"⟩,
  ⟨"GET", "/jutsus/"⟩,
  ⟨"GET", "/jutsus/{jutsu_id}"⟩,
  ⟨"PATCH", "/jutsus/{jutsu_id}"⟩,
  ⟨"DELETE", "/jutsus/{jutsu_id}"⟩ ]

/-- Routes of the health router (health.py lines 10-43). -/
def healthRouterRoutes : List Route := [
  ⟨"GET", "/health"⟩,
  ⟨"GET", "/health/db"⟩ ]

/-- Every route the application registers (main.py lines 126-150):
character and jutsu routers under the api prefix, the health router
unprefixed, the root endpoint.  No task router exists anywhere in the
repository. -/
def appRoutes : List Route :=
  (characterRouterRoutes ++ jutsuRouterRoutes).map
      (fun r => { r with path := settingsApiV1 ++ r.path })
    ++ healthRouterRoutes ++ [⟨"GET", "/"⟩]

/-- Exact-path route lookup over the registered table. -/
def matchRoute (method path : String) : Option Route :=
  appRoutes.find? (fun r => r.method == method && r.path == path)

/-! ## Schema-boundary validation of a jutsu creation payload
(app/schemas.py lines 8-11: every field of JutsuBase is required) -/

/-- A declarative-validation failure for one field. -/
inductive FieldError where
  | missing (field : String)
  | tooShort (field : String)
  | tooLong (field : String)
  | belowMin (field : String)
deriving DecidableEq

/-- A raw creation request body for a jutsu: each field either present
with a value or absent. -/
structure JutsuPayload where
  name : Option String := none
  type : Option String := none
  chakra_cost : Option Int := none
deriving DecidableEq

/-- Pydantic validation of a body against the JutsuCreate schema:
name required with length 1-100, type required with length 1-50,
chakra_cost required with minimum 1 (Field(..., ge=1)).  The reference
implementation aggregates all field errors; this embedding reports the
first, and accepts exactly the same payloads. -/
def validateJutsuCreate (p : JutsuPayload) : Except FieldError JutsuCreate :=
  match p.name with
  | none => Except.error (FieldError.missing "name")
  | some nv =>
    if nv.length < 1 then Except.error (FieldError.tooShort "name")
    else if 100 < nv.length then Except.error (FieldError.tooLong "name")
    else
      match p.type with
      | none => Except.error (FieldError.missing "type")
      | some tv =>
        if tv.length < 1 then Except.error (FieldError.tooShort "type")
        else if 50 < tv.length then Except.error (FieldError.tooLong "type")
        else
          match p.chakra_cost with
          | none => Except.error (FieldError.missing "chakra_cost")
          | some cv =>
            if cv < 1 then Except.error (FieldError.belowMin "chakra_cost")
            else Except.ok { name := nv, type := tv, chakra_cost := cv }

/-! ## The fixed client-visible error details -/

/-- Every detail string a service method can put into an
HTTPException: the literal strings of the three service files.  None
of them interpolates internal error text. -/
def serviceDetails : List String := [
  "Character not found", "Jutsu not found", "Task not found",
  "Could not create character", "Could not create jutsu", "Could not create task",
  "Error retrieving characters", "Error retrieving jutsus", "Error retrieving tasks",
  "Error retrieving character", "Error retrieving jutsu", "Error retrieving task",
  "Could not update character", "Could not update jutsu", "Could not update task",
  "Could not delete character", "Could not delete jutsu", "Could not delete task",
  "Could not add jutsu to character" ]

/-- An operation outcome leaks nothing: it either succeeds, or fails
with an HTTPException whose detail is one of the fixed literals above
— never a raw Python exception, never text derived from the store
failure. -/
def NoLeak : Except PyExc α → Prop
  | Except.ok _ => True
  | Except.error (PyExc.http e) => e.detail ∈ serviceDetails
  | Except.error _ => False


/-! ## Concrete sample data for witnesses and counterexamples -/

/-- A concrete character row. -/
def sampleCharacter : Character :=
  { id := 1, name := "Kakashi", village := "Leaf", created_at := 10, updated_at := 10 }

/-- A concrete jutsu row. -/
def sampleJutsu : Jutsu :=
  { id := 1, name := "Chidori", type := "Ninjutsu", chakra_cost := 20,
    created_at := 10, updated_at := 10 }

/-- A concrete task row, not started. -/
def sampleTask : Task := { id := 1, title := "Write spec", created_at := 10 }

/-- A store holding one row of each entity. -/
def sampleStore : Store :=
  { characters := [sampleCharacter], jutsus := [sampleJutsu], tasks := [sampleTask],
    next_character_id := 2, next_jutsu_id := 2, next_task_id := 2 }

/-- The empty store. -/
def emptyStore : Store := {}

/-- A concrete valid jutsu creation payload. -/
def sampleJutsuCreate : JutsuCreate :=
  { name := "Rasengan", type := "Ninjutsu", chakra_cost := 15 }

/-! # Helper lemmas -/

/-- The integer-division formula of the services is an upper ceiling:
the page count times the page size covers the total. -/
theorem ceil_le_mul (t sz : Nat) (hs : 1 ≤ sz) : t ≤ ((t + sz - 1) / sz) * sz := by
  rcases t with _ | t
  · exact Nat.zero_le _
  · have hadd : t + 1 + sz - 1 = t + sz := by omega
    rw [hadd, Nat.add_div_right t hs]
    have h1 := Nat.div_add_mod t sz
    have h2 : t % sz < sz := Nat.mod_lt t (by omega)
    calc t + 1 ≤ sz * (t / sz) + t % sz + 1 := by rw [h1]
      _ ≤ sz * (t / sz) + sz := by
          rw [Nat.add_assoc]
          exact Nat.add_le_add_left (Nat.succ_le_of_lt h2) _
      _ = (t / sz + 1) * sz := by ring

/-- The integer-division formula of the services is the least such
count: any m pages of the given size covering the total dominate it. -/
theorem ceil_least (t sz m : Nat) (hs : 1 ≤ sz) (h : t ≤ m * sz) :
    (t + sz - 1) / sz ≤ m := by
  have h1 : t + sz - 1 < (m + 1) * sz := by
    have h2 : (m + 1) * sz = m * sz + sz := by ring
    rw [h2]
    have h3 : 0 < m * sz + sz := Nat.lt_of_lt_of_le hs (Nat.le_add_left sz (m * sz))
    have h4 : t + sz - 1 ≤ m * sz + sz - 1 :=
      Nat.sub_le_sub_right (Nat.add_le_add_right h sz) 1
    exact Nat.lt_of_le_of_lt h4 (Nat.sub_lt h3 Nat.one_pos)
  exact Nat.lt_succ_iff.mp ((Nat.div_lt_iff_lt_mul hs).mpr h1)

/-- Sorting by a key yields a list pairwise ordered by that key. -/
theorem sortByKey_pairwise (key : α → Int) (l : List α) :
    (sortByKey key l).Pairwise (fun a b => key a ≤ key b) := by
  haveI : IsTotal α (fun a b => key a ≤ key b) := ⟨fun a b => Int.le_total (key a) (key b)⟩
  haveI : IsTrans α (fun a b => key a ≤ key b) := ⟨fun _ _ _ h1 h2 => Int.le_trans h1 h2⟩
  exact List.sorted_insertionSort (fun a b => key a ≤ key b) l

/-- Sorting preserves length. -/
theorem sortByKey_length (key : α → Int) (l : List α) :
    (sortByKey key l).length = l.length :=
  (List.perm_insertionSort (fun a b => key a ≤ key b) l).length_eq

/-- Any offset/limit slice of a pairwise-ordered list is pairwise
ordered. -/
theorem pairwise_take_drop {R : α → α → Prop} {l : List α} (h : l.Pairwise R) (n m : Nat) :
    ((l.drop n).take m).Pairwise R :=
  h.sublist ((List.take_sublist m (l.drop n)).trans (List.drop_sublist n l))

/-- Membership after removing the first hit of a predicate that (by
pairwise uniqueness) at most one element satisfies: exactly the
non-hits remain. -/
theorem removeFirst_mem_iff (p : α → Bool) :
    ∀ (l : List α), l.Pairwise (fun a b => ¬(p a = true ∧ p b = true)) →
      ∀ x, (x ∈ removeFirst p l ↔ x ∈ l ∧ p x = false)
  | [], _, x => by simp [removeFirst]
  | a :: t, hu, x => by
    have hpc := List.pairwise_cons.mp hu
    by_cases hpa : p a = true
    · rw [removeFirst, if_pos hpa]
      constructor
      · intro hx
        refine ⟨List.mem_cons_of_mem a hx, ?_⟩
        have hni := hpc.1 x hx
        cases hpx : p x
        · rfl
        · exact absurd ⟨hpa, hpx⟩ hni
      · rintro ⟨hx, hpx⟩
        rcases List.mem_cons.mp hx with rfl | hx
        · rw [hpa] at hpx; exact absurd hpx (by simp)
        · exact hx
    · rw [removeFirst, if_neg hpa]
      have hpaf : p a = false := by
        cases hp : p a
        · rfl
        · exact absurd hp hpa
      constructor
      · intro hx
        rcases List.mem_cons.mp hx with rfl | hx
        · exact ⟨List.mem_cons_self _ _, hpaf⟩
        · have := (removeFirst_mem_iff p t hpc.2 x).mp hx
          exact ⟨List.mem_cons_of_mem a this.1, this.2⟩
      · rintro ⟨hx, hpx⟩
        rcases List.mem_cons.mp hx with rfl | hx
        · exact List.mem_cons_self _ _
        · exact List.mem_cons_of_mem a ((removeFirst_mem_iff p t hpc.2 x).mpr ⟨hx, hpx⟩)

/-- Removing the first hit of a predicate with a witness in the list
shortens it by exactly one. -/
theorem removeFirst_length (p : α → Bool) :
    ∀ (l : List α) (c : α), c ∈ l → p c = true → (removeFirst p l).length + 1 = l.length
  | [], c, hc, _ => absurd hc (List.not_mem_nil c)
  | a :: t, c, hc, hpc => by
    by_cases hpa : p a = true
    · rw [removeFirst, if_pos hpa, List.length_cons]
    · rw [removeFirst, if_neg hpa]
      have hct : c ∈ t := by
        rcases List.mem_cons.mp hc with rfl | h
        · exact absurd hpc hpa
        · exact h
      rw [List.length_cons, List.length_cons,
        ← removeFirst_length p t c hct hpc]

/-- A success outcome leaks nothing. -/
theorem noLeak_ok (a : α) : NoLeak (Except.ok a) := trivial

/-- An HTTPException outcome whose detail is one of the fixed literal
strings leaks nothing. -/
theorem noLeak_http (code : Nat) (d : String) (hd : d ∈ serviceDetails) :
    NoLeak (α := α) (Except.error (PyExc.http ⟨code, d⟩)) := hd

/-! ## Evaluation lemmas: each operation under a working store,
reduced to a case split on the row lookup -/

/-- CharacterService.get_by_id under a working store. -/
theorem charGetById_eval (s : Store) (id : Int) :
    CharacterService.get_by_id s id none =
      (match s.getCharacter id with
       | some c => Except.ok c
       | none => Except.error (PyExc.http ⟨404, "Character not found"⟩)) := by
  unfold CharacterService.get_by_id
  cases h : s.getCharacter id <;> rfl

/-- JutsuService.get_by_id under a working store. -/
theorem jutsuGetById_eval (s : Store) (id : Int) :
    JutsuService.get_by_id s id none =
      (match s.getJutsu id with
       | some j => Except.ok j
       | none => Except.error (PyExc.http ⟨404, "Jutsu not found"⟩)) := by
  unfold JutsuService.get_by_id
  cases h : s.getJutsu id <;> rfl

/-- TaskService.get_by_id under a working store. -/
theorem taskGetById_eval (s : Store) (id : Int) :
    TaskService.get_by_id s id none =
      (match s.getTask id with
       | some t => Except.ok t
       | none => Except.error (PyExc.http ⟨404, "Task not found"⟩)) := by
  unfold TaskService.get_by_id
  cases h : s.getTask id <;> rfl

/-- CharacterService.update under a working store: 404 when the id is
absent, otherwise the present fields are applied and committed. -/
theorem charUpdate_eval (s : Store) (id : Int) (u : CharacterUpdate) :
    CharacterService.update s id u none =
      (match s.getCharacter id with
       | some c => Except.ok (c.applyUpdate u, s.setCharacter id (c.applyUpdate u))
       | none => Except.error (PyExc.http ⟨404, "Character not found"⟩)) := by
  unfold CharacterService.update CharacterService.get_by_id
  cases h : s.getCharacter id <;> rfl

/-- JutsuService.update under a working store: 404 when the id is
absent; when it exists, the read of the undeclared
jutsu_update.character_id attribute raises AttributeError, which the
generic handler turns into the 400. -/
theorem jutsuUpdate_eval (s : Store) (id : Int) (u : JutsuUpdate) :
    JutsuService.update s id u none =
      (match s.getJutsu id with
       | some _ => Except.error (PyExc.http ⟨400, "Could not update jutsu"⟩)
       | none => Except.error (PyExc.http ⟨404, "Jutsu not found"⟩)) := by
  unfold JutsuService.update JutsuService.get_by_id
  cases h : s.getJutsu id <;> rfl

/-- TaskService.update under a working store. -/
theorem taskUpdate_eval (s : Store) (id : Int) (u : TaskUpdate) (now : Nat) :
    TaskService.update s id u now none =
      (match s.getTask id with
       | some t =>
         Except.ok ((t.applyUpdate u).stampDates u.status now,
           s.setTask id ((t.applyUpdate u).stampDates u.status now))
       | none => Except.error (PyExc.http ⟨404, "Task not found"⟩)) := by
  unfold TaskService.update TaskService.get_by_id
  cases h : s.getTask id <;> rfl

/-- CharacterService.delete under a working store. -/
theorem charDelete_eval (s : Store) (id : Int) :
    CharacterService.delete s id none =
      (match s.getCharacter id with
       | some _ =>
         Except.ok ((), { s with characters := removeFirst (fun c => c.id = id) s.characters })
       | none => Except.error (PyExc.http ⟨404, "Character not found"⟩)) := by
  unfold CharacterService.delete CharacterService.get_by_id
  cases h : s.getCharacter id <;> rfl

/-- JutsuService.delete under a working store. -/
theorem jutsuDelete_eval (s : Store) (id : Int) :
    JutsuService.delete s id none =
      (match s.getJutsu id with
       | some _ =>
         Except.ok ((), { s with jutsus := removeFirst (fun j => j.id = id) s.jutsus })
       | none => Except.error (PyExc.http ⟨404, "Jutsu not found"⟩)) := by
  unfold JutsuService.delete JutsuService.get_by_id
  cases h : s.getJutsu id <;> rfl

/-- TaskService.delete under a working store. -/
theorem taskDelete_eval (s : Store) (id : Int) :
    TaskService.delete s id none =
      (match s.getTask id with
       | some _ =>
         Except.ok ((), { s with tasks := removeFirst (fun t => t.id = id) s.tasks })
       | none => Except.error (PyExc.http ⟨404, "Task not found"⟩)) := by
  unfold TaskService.delete TaskService.get_by_id
  cases h : s.getTask id <;> rfl

/-- CharacterService.add_jutsu under a working store: 404 when the
character is absent, otherwise the new row is inserted with
character_id set to the path id. -/
theorem addJutsu_eval (s : Store) (cid : Int) (j : JutsuCreate) (now : Nat) :
    CharacterService.add_jutsu s cid j now none =
      (match s.getCharacter cid with
       | some _ =>
         Except.ok
           ({ id := s.next_jutsu_id, name := j.name, type := j.type,
              chakra_cost := j.chakra_cost, created_at := now, updated_at := now,
              character_id := some cid },
            { s with
              jutsus := s.jutsus ++
                [{ id := s.next_jutsu_id, name := j.name, type := j.type,
                   chakra_cost := j.chakra_cost, created_at := now, updated_at := now,
                   character_id := some cid }],
              next_jutsu_id := s.next_jutsu_id + 1 })
       | none => Except.error (PyExc.http ⟨404, "Character not found"⟩)) := by
  unfold CharacterService.add_jutsu CharacterService.get_by_id
  cases h : s.getCharacter cid <;> rfl

/-- JutsuService.create raises the generic 400 on every input and
every store state: the very first statement of its body reads
jutsu.character_id, an attribute the JutsuCreate schema does not
declare, and the resulting AttributeError falls into the bare
`except Exception` clause. -/
theorem jutsuCreate_eval (s : Store) (j : JutsuCreate) (now : Nat) (fault : Option String) :
    JutsuService.create s j now fault =
      Except.error (PyExc.http ⟨400, "Could not create jutsu"⟩) := rfl

/-! ## NoLeak, operation by operation -/

/-- CharacterService.create leaks nothing. -/
theorem noLeak_charCreate (s : Store) (c : CharacterCreate) (now : Nat) (fault : Option String) :
    NoLeak (CharacterService.create s c now fault) := by
  cases fault with
  | some m => exact noLeak_http 400 "Could not create character" (by decide)
  | none => exact noLeak_ok _

/-- CharacterService.get_all leaks nothing. -/
theorem noLeak_charGetAll (s : Store) (page size : Nat) (search : Option String)
    (fault : Option String) : NoLeak (CharacterService.get_all s page size search fault) := by
  cases fault with
  | some m => exact noLeak_http 500 "Error retrieving characters" (by decide)
  | none => exact noLeak_ok _

/-- CharacterService.get_by_id leaks nothing. -/
theorem noLeak_charGetById (s : Store) (id : Int) (fault : Option String) :
    NoLeak (CharacterService.get_by_id s id fault) := by
  cases fault with
  | some m => exact noLeak_http 500 "Error retrieving character" (by decide)
  | none =>
    rw [charGetById_eval]
    cases h : s.getCharacter id with
    | none => exact noLeak_http 404 "Character not found" (by decide)
    | some c => exact noLeak_ok _

/-- CharacterService.update leaks nothing. -/
theorem noLeak_charUpdate (s : Store) (id : Int) (u : CharacterUpdate) (fault : Option String) :
    NoLeak (CharacterService.update s id u fault) := by
  cases fault with
  | some m => exact noLeak_http 500 "Error retrieving character" (by decide)
  | none =>
    rw [charUpdate_eval]
    cases h : s.getCharacter id with
    | none => exact noLeak_http 404 "Character not found" (by decide)
    | some c => exact noLeak_ok _

/-- CharacterService.delete leaks nothing. -/
theorem noLeak_charDelete (s : Store) (id : Int) (fault : Option String) :
    NoLeak (CharacterService.delete s id fault) := by
  cases fault with
  | some m => exact noLeak_http 500 "Error retrieving character" (by decide)
  | none =>
    rw [charDelete_eval]
    cases h : s.getCharacter id with
    | none => exact noLeak_http 404 "Character not found" (by decide)
    | some c => exact noLeak_ok _

/-- CharacterService.add_jutsu leaks nothing. -/
theorem noLeak_addJutsu (s : Store) (cid : Int) (j : JutsuCreate) (now : Nat)
    (fault : Option String) : NoLeak (CharacterService.add_jutsu s cid j now fault) := by
  cases fault with
  | some m => exact noLeak_http 500 "Error retrieving character" (by decide)
  | none =>
    rw [addJutsu_eval]
    cases h : s.getCharacter cid with
    | none => exact noLeak_http 404 "Character not found" (by decide)
    | some c => exact noLeak_ok _

/-- JutsuService.create leaks nothing (it always fails with the fixed
generic 400). -/
theorem noLeak_jutsuCreate (s : Store) (j : JutsuCreate) (now : Nat) (fault : Option String) :
    NoLeak (JutsuService.create s j now fault) := by
  rw [jutsuCreate_eval]
  exact noLeak_http 400 "Could not create jutsu" (by decide)

/-- JutsuService.get_all leaks nothing. -/
theorem noLeak_jutsuGetAll (s : Store) (page size : Nat) (search : Option String)
    (cid : Option Int) (fault : Option String) :
    NoLeak (JutsuService.get_all s page size search cid fault) := by
  cases fault with
  | some m => exact noLeak_http 500 "Error retrieving jutsus" (by decide)
  | none => exact noLeak_ok _

/-- JutsuService.get_by_id leaks nothing. -/
theorem noLeak_jutsuGetById (s : Store) (id : Int) (fault : Option String) :
    NoLeak (JutsuService.get_by_id s id fault) := by
  cases fault with
  | some m => exact noLeak_http 500 "Error retrieving jutsu" (by decide)
  | none =>
    rw [jutsuGetById_eval]
    cases h : s.getJutsu id with
    | none => exact noLeak_http 404 "Jutsu not found" (by decide)
    | some j => exact noLeak_ok _

/-- JutsuService.update leaks nothing. -/
theorem noLeak_jutsuUpdate (s : Store) (id : Int) (u : JutsuUpdate) (fault : Option String) :
    NoLeak (JutsuService.update s id u fault) := by
  cases fault with
  | some m => exact noLeak_http 500 "Error retrieving jutsu" (by decide)
  | none =>
    rw [jutsuUpdate_eval]
    cases h : s.getJutsu id with
    | none => exact noLeak_http 404 "Jutsu not found" (by decide)
    | some j => exact noLeak_http 400 "Could not update jutsu" (by decide)

/-- JutsuService.delete leaks nothing. -/
theorem noLeak_jutsuDelete (s : Store) (id : Int) (fault : Option String) :
    NoLeak (JutsuService.delete s id fault) := by
  cases fault with
  | some m => exact noLeak_http 500 "Error retrieving jutsu" (by decide)
  | none =>
    rw [jutsuDelete_eval]
    cases h : s.getJutsu id with
    | none => exact noLeak_http 404 "Jutsu not found" (by decide)
    | some j => exact noLeak_ok _

/-- TaskService.create leaks nothing. -/
theorem noLeak_taskCreate (s : Store) (t : TaskCreate) (now : Nat) (fault : Option String) :
    NoLeak (TaskService.create s t now fault) := by
  cases fault with
  | some m => exact noLeak_http 400 "Could not create task" (by decide)
  | none => exact noLeak_ok _

/-- TaskService.get_all leaks nothing. -/
theorem noLeak_taskGetAll (s : Store) (page size : Nat) (search : Option String)
    (fault : Option String) : NoLeak (TaskService.get_all s page size search fault) := by
  cases fault with
  | some m => exact noLeak_http 500 "Error retrieving tasks" (by decide)
  | none => exact noLeak_ok _

/-- TaskService.get_by_id leaks nothing. -/
theorem noLeak_taskGetById (s : Store) (id : Int) (fault : Option String) :
    NoLeak (TaskService.get_by_id s id fault) := by
  cases fault with
  | some m => exact noLeak_http 500 "Error retrieving task" (by decide)
  | none =>
    rw [taskGetById_eval]
    cases h : s.getTask id with
    | none => exact noLeak_http 404 "Task not found" (by decide)
    | some t => exact noLeak_ok _

/-- TaskService.update leaks nothing. -/
theorem noLeak_taskUpdate (s : Store) (id : Int) (u : TaskUpdate) (now : Nat)
    (fault : Option String) : NoLeak (TaskService.update s id u now fault) := by
  cases fault with
  | some m => exact noLeak_http 500 "Error retrieving task" (by decide)
  | none =>
    rw [taskUpdate_eval]
    cases h : s.getTask id with
    | none => exact noLeak_http 404 "Task not found" (by decide)
    | some t => exact noLeak_ok _

/-- TaskService.delete leaks nothing. -/
theorem noLeak_taskDelete (s : Store) (id : Int) (fault : Option String) :
    NoLeak (TaskService.delete s id fault) := by
  cases fault with
  | some m => exact noLeak_http 500 "Error retrieving task" (by decide)
  | none =>
    rw [taskDelete_eval]
    cases h : s.getTask id with
    | none => exact noLeak_http 404 "Task not found" (by decide)
    | some t => exact noLeak_ok _

/-! # Claim theorems -/

/-- C1: for every input payload, JutsuService.create raises the
generic 400 error "Could not create jutsu" and never persists a row —
it reads jutsu.character_id, a field the JutsuCreate schema does not
define, and the AttributeError is caught and converted to 400; and for
every existing jutsu id, JutsuService.update raises 400 before
applying any field, because it reads jutsu_update.character_id, not
defined on JutsuUpdate.  Hence POST /jutsus/ and PATCH /jutsus/[id]
never succeed. -/
theorem claim_C1 :
    (∀ (s : Store) (j : JutsuCreate) (now : Nat) (fault : Option String),
       JutsuService.create s j now fault =
         Except.error (PyExc.http ⟨400, "Could not create jutsu"⟩)) ∧
    (∀ (s : Store) (id : Int) (u : JutsuUpdate),
       s.getJutsu id ≠ none →
       JutsuService.update s id u none =
         Except.error (PyExc.http ⟨400, "Could not update jutsu"⟩)) := by
  refine ⟨jutsuCreate_eval, fun s id u h => ?_⟩
  rw [jutsuUpdate_eval]
  rcases Option.ne_none_iff_exists.mp h with ⟨j, hj⟩
  rw [← hj]

/-- Witness for C1 at a concrete store holding jutsu 1. -/
theorem claim_C1_wit :
    sampleStore.getJutsu 1 ≠ none ∧
    JutsuService.update sampleStore 1 {} none =
      Except.error (PyExc.http ⟨400, "Could not update jutsu"⟩) :=
  ⟨by decide, claim_C1.2 sampleStore 1 {} (by decide)⟩

/-- C2 (code bug): the update stamps start_date when the submitted
status is in_progress and stamps end_date when it is completed, but
leaves end_date untouched when it is cancelled, because
TaskService.update compares the status string against the spelling
"canceled" which the cancelled member never produces.  Evaluated at
the failing input: task 1 exists, payload status = cancelled, current
time 500 — the returned task has status cancelled and end_date still
none. -/
theorem claim_C2_eval :
    (∃ t s2, TaskService.update sampleStore 1 { status := some TaskStatus.cancelled } 500 none =
       Except.ok (t, s2) ∧ t.status = TaskStatus.cancelled ∧ t.end_date = none) ∧
    (∃ t s2, TaskService.update sampleStore 1 { status := some TaskStatus.in_progress } 500 none =
       Except.ok (t, s2) ∧ t.start_date = some 500 ∧ t.end_date = none) ∧
    (∃ t s2, TaskService.update sampleStore 1 { status := some TaskStatus.completed } 500 none =
       Except.ok (t, s2) ∧ t.end_date = some 500 ∧ t.start_date = none) :=
  ⟨⟨_, _, rfl, rfl, rfl⟩, ⟨_, _, rfl, rfl, rfl⟩, ⟨_, _, rfl, rfl, rfl⟩⟩

/-- C3: every list operation (Task, Character, Jutsu) with page ≥ 1
and 1 ≤ size ≤ 100 returns an envelope whose total counts all rows
matching the filter before pagination, whose pages is the ceiling of
total/size (characterised as the least page count covering the
total), whose has_next/has_prev flags are page < pages and page > 1,
and whose items are the rows at offset (page-1)*size limited to size,
ordered ascending by id. -/
theorem claim_C3 :
    (∀ (s : Store) (page size : Nat) (search : Option String),
       1 ≤ page → 1 ≤ size → size ≤ 100 →
       ∃ r : PageResponse Character,
         CharacterService.get_all s page size search none = Except.ok r ∧
         r.total = (characterQueryRows s search).length ∧
         r.total ≤ r.pages * size ∧ (∀ m, r.total ≤ m * size → r.pages ≤ m) ∧
         (r.has_next = true ↔ page < r.pages) ∧
         (r.has_prev = true ↔ 1 < page) ∧
         r.items = ((characterQueryRows s search).drop ((page - 1) * size)).take size ∧
         r.items.Pairwise (fun a b => a.id ≤ b.id)) ∧
    (∀ (s : Store) (page size : Nat) (search : Option String) (cid : Option Int),
       1 ≤ page → 1 ≤ size → size ≤ 100 →
       ∃ r : PageResponse Jutsu,
         JutsuService.get_all s page size search cid none = Except.ok r ∧
         r.total = (jutsuQueryRows s search cid).length ∧
         r.total ≤ r.pages * size ∧ (∀ m, r.total ≤ m * size → r.pages ≤ m) ∧
         (r.has_next = true ↔ page < r.pages) ∧
         (r.has_prev = true ↔ 1 < page) ∧
         r.items = ((jutsuQueryRows s search cid).drop ((page - 1) * size)).take size ∧
         r.items.Pairwise (fun a b => a.id ≤ b.id)) ∧
    (∀ (s : Store) (page size : Nat) (search : Option String),
       1 ≤ page → 1 ≤ size → size ≤ 100 →
       ∃ r : PageResponse Task,
         TaskService.get_all s page size search none = Except.ok r ∧
         r.total = (taskQueryRows s search).length ∧
         r.total ≤ r.pages * size ∧ (∀ m, r.total ≤ m * size → r.pages ≤ m) ∧
         (r.has_next = true ↔ page < r.pages) ∧
         (r.has_prev = true ↔ 1 < page) ∧
         r.items = ((taskQueryRows s search).drop ((page - 1) * size)).take size ∧
         r.items.Pairwise (fun a b => a.id ≤ b.id)) := by
  refine ⟨fun s page size search hp hs hs100 => ?_,
    fun s page size search cid hp hs hs100 => ?_,
    fun s page size search hp hs hs100 => ?_⟩ <;>
  · refine ⟨_, rfl, rfl, ceil_le_mul _ size hs,
      fun m hm => ceil_least _ size m hs hm, by simp [paginate], by simp [paginate], rfl, ?_⟩
    exact pairwise_take_drop (sortByKey_pairwise _ _) _ _

/-- Witness for C3 on the sample store, page 1 of size 10. -/
theorem claim_C3_wit :
    ∃ r : PageResponse Character,
      CharacterService.get_all sampleStore 1 10 none none = Except.ok r ∧
      r.total = (characterQueryRows sampleStore none).length ∧
      r.total ≤ r.pages * 10 ∧ (∀ m, r.total ≤ m * 10 → r.pages ≤ m) ∧
      (r.has_next = true ↔ 1 < r.pages) ∧
      (r.has_prev = true ↔ 1 < 1) ∧
      r.items = ((characterQueryRows sampleStore none).drop ((1 - 1) * 10)).take 10 ∧
      r.items.Pairwise (fun a b => a.id ≤ b.id) :=
  claim_C3.1 sampleStore 1 10 none (by decide) (by decide) (by decide)

/-- C4: add_jutsu fails with NotFound when the character id is absent,
and otherwise creates and returns a Jutsu row whose character_id
equals the path id; and any creation through JutsuService.create fails
with the generic 400 ValidationError, so no silently-null association
can ever be produced. -/
theorem claim_C4 :
    (∀ (s : Store) (cid : Int) (j : JutsuCreate) (now : Nat),
       s.getCharacter cid = none →
       CharacterService.add_jutsu s cid j now none =
         Except.error (PyExc.http ⟨404, "Character not found"⟩)) ∧
    (∀ (s : Store) (cid : Int) (j : JutsuCreate) (now : Nat) (c : Character),
       s.getCharacter cid = some c →
       ∃ (dbj : Jutsu) (s2 : Store),
         CharacterService.add_jutsu s cid j now none = Except.ok (dbj, s2) ∧
         dbj.character_id = some cid ∧ dbj.name = j.name ∧ dbj.type = j.type ∧
         dbj.chakra_cost = j.chakra_cost ∧ s2.jutsus = s.jutsus ++ [dbj] ∧
         s2.characters = s.characters) ∧
    (∀ (s : Store) (j : JutsuCreate) (now : Nat) (fault : Option String),
       JutsuService.create s j now fault =
         Except.error (PyExc.http ⟨400, "Could not create jutsu"⟩)) := by
  refine ⟨fun s cid j now h => ?_, fun s cid j now c h => ?_, jutsuCreate_eval⟩
  · rw [addJutsu_eval, h]
  · rw [addJutsu_eval, h]
    exact ⟨_, _, rfl, rfl, rfl, rfl, rfl, rfl, rfl⟩

/-- Witness for C4: absent character 7 in the empty store, present
character 1 in the sample store. -/
theorem claim_C4_wit :
    emptyStore.getCharacter 7 = none ∧
    CharacterService.add_jutsu emptyStore 7 sampleJutsuCreate 3 none =
      Except.error (PyExc.http ⟨404, "Character not found"⟩) ∧
    sampleStore.getCharacter 1 = some sampleCharacter ∧
    (∃ (dbj : Jutsu) (s2 : Store),
       CharacterService.add_jutsu sampleStore 1 sampleJutsuCreate 3 none =
         Except.ok (dbj, s2) ∧
       dbj.character_id = some 1 ∧ dbj.name = sampleJutsuCreate.name ∧
       dbj.type = sampleJutsuCreate.type ∧
       dbj.chakra_cost = sampleJutsuCreate.chakra_cost ∧
       s2.jutsus = sampleStore.jutsus ++ [dbj] ∧
       s2.characters = sampleStore.characters) :=
  ⟨by decide, claim_C4.1 emptyStore 7 sampleJutsuCreate 3 (by decide),
   by decide, claim_C4.2.1 sampleStore 1 sampleJutsuCreate 3 sampleCharacter (by decide)⟩

/-- C5 (code bug): the claim promises POST /tasks/ answers 201 with
defaults populated, but the application registers no task route at
all: main.py includes only the character, jutsu and health routers,
and the Task model and schemas do not exist in the repository.  Route
lookup for POST /tasks/ (with or without the api prefix) finds
nothing, and no registered path even mentions /tasks. -/
theorem claim_C5_eval :
    matchRoute "POST" "/tasks/" = none ∧
    matchRoute "POST" (settingsApiV1 ++ "/tasks/") = none ∧
    appRoutes.all (fun r => !(strContains r.path "/tasks")) = true := by
  refine ⟨rfl, rfl, ?_⟩
  decide

/-- C6: on every repository operation of every entity, a NotFound
raised inside the operation propagates to the caller unchanged (the
absent-id cases below return exactly the 404 the lookup raised), and
every other failure — including an arbitrary injected store fault —
surfaces only as an HTTPException carrying one of the fixed literal
details, never internal store or runtime error text. -/
theorem claim_C6 :
    ((∀ (s : Store) (c : CharacterCreate) (now : Nat) (fault : Option String),
        NoLeak (CharacterService.create s c now fault)) ∧
     (∀ (s : Store) (page size : Nat) (search : Option String) (fault : Option String),
        NoLeak (CharacterService.get_all s page size search fault)) ∧
     (∀ (s : Store) (id : Int) (fault : Option String),
        NoLeak (CharacterService.get_by_id s id fault)) ∧
     (∀ (s : Store) (id : Int) (u : CharacterUpdate) (fault : Option String),
        NoLeak (CharacterService.update s id u fault)) ∧
     (∀ (s : Store) (id : Int) (fault : Option String),
        NoLeak (CharacterService.delete s id fault)) ∧
     (∀ (s : Store) (cid : Int) (j : JutsuCreate) (now : Nat) (fault : Option String),
        NoLeak (CharacterService.add_jutsu s cid j now fault)) ∧
     (∀ (s : Store) (j : JutsuCreate) (now : Nat) (fault : Option String),
        NoLeak (JutsuService.create s j now fault)) ∧
     (∀ (s : Store) (page size : Nat) (search : Option String) (cid : Option Int)
        (fault : Option String),
        NoLeak (JutsuService.get_all s page size search cid fault)) ∧
     (∀ (s : Store) (id : Int) (fault : Option String),
        NoLeak (JutsuService.get_by_id s id fault)) ∧
     (∀ (s : Store) (id : Int) (u : JutsuUpdate) (fault : Option String),
        NoLeak (JutsuService.update s id u fault)) ∧
     (∀ (s : Store) (id : Int) (fault : Option String),
        NoLeak (JutsuService.delete s id fault)) ∧
     (∀ (s : Store) (t : TaskCreate) (now : Nat) (fault : Option String),
        NoLeak (TaskService.create s t now fault)) ∧
     (∀ (s : Store) (page size : Nat) (search : Option String) (fault : Option String),
        NoLeak (TaskService.get_all s page size search fault)) ∧
     (∀ (s : Store) (id : Int) (fault : Option String),
        NoLeak (TaskService.get_by_id s id fault)) ∧
     (∀ (s : Store) (id : Int) (u : TaskUpdate) (now : Nat) (fault : Option String),
        NoLeak (TaskService.update s id u now fault)) ∧
     (∀ (s : Store) (id : Int) (fault : Option String),
        NoLeak (TaskService.delete s id fault))) ∧
    ((∀ (s : Store) (id : Int), s.getCharacter id = none →
        CharacterService.get_by_id s id none =
          Except.error (PyExc.http ⟨404, "Character not found"⟩)) ∧
     (∀ (s : Store) (id : Int) (u : CharacterUpdate), s.getCharacter id = none →
        CharacterService.update s id u none =
          Except.error (PyExc.http ⟨404, "Character not found"⟩)) ∧
     (∀ (s : Store) (id : Int), s.getCharacter id = none →
        CharacterService.delete s id none =
          Except.error (PyExc.http ⟨404, "Character not found"⟩)) ∧
     (∀ (s : Store) (cid : Int) (j : JutsuCreate) (now : Nat), s.getCharacter cid = none →
        CharacterService.add_jutsu s cid j now none =
          Except.error (PyExc.http ⟨404, "Character not found"⟩)) ∧
     (∀ (s : Store) (id : Int), s.getJutsu id = none →
        JutsuService.get_by_id s id none =
          Except.error (PyExc.http ⟨404, "Jutsu not found"⟩)) ∧
     (∀ (s : Store) (id : Int) (u : JutsuUpdate), s.getJutsu id = none →
        JutsuService.update s id u none =
          Except.error (PyExc.http ⟨404, "Jutsu not found"⟩)) ∧
     (∀ (s : Store) (id : Int), s.getJutsu id = none →
        JutsuService.delete s id none =
          Except.error (PyExc.http ⟨404, "Jutsu not found"⟩)) ∧
     (∀ (s : Store) (id : Int), s.getTask id = none →
        TaskService.get_by_id s id none =
          Except.error (PyExc.http ⟨404, "Task not found"⟩)) ∧
     (∀ (s : Store) (id : Int) (u : TaskUpdate) (now : Nat), s.getTask id = none →
        TaskService.update s id u now none =
          Except.error (PyExc.http ⟨404, "Task not found"⟩)) ∧
     (∀ (s : Store) (id : Int), s.getTask id = none →
        TaskService.delete s id none =
          Except.error (PyExc.http ⟨404, "Task not found"⟩))) := by
  refine ⟨⟨noLeak_charCreate, noLeak_charGetAll, noLeak_charGetById, noLeak_charUpdate,
      noLeak_charDelete, noLeak_addJutsu, noLeak_jutsuCreate, noLeak_jutsuGetAll,
      noLeak_jutsuGetById, noLeak_jutsuUpdate, noLeak_jutsuDelete, noLeak_taskCreate,
      noLeak_taskGetAll, noLeak_taskGetById, noLeak_taskUpdate, noLeak_taskDelete⟩,
    ⟨fun s id h => by rw [charGetById_eval, h],
     fun s id u h => by rw [charUpdate_eval, h],
     fun s id h => by rw [charDelete_eval, h],
     fun s cid j now h => by rw [addJutsu_eval, h],
     fun s id h => by rw [jutsuGetById_eval, h],
     fun s id u h => by rw [jutsuUpdate_eval, h],
     fun s id h => by rw [jutsuDelete_eval, h],
     fun s id h => by rw [taskGetById_eval, h],
     fun s id u now h => by rw [taskUpdate_eval, h],
     fun s id h => by rw [taskDelete_eval, h]⟩⟩

/-- Witness for C6: a faulting store surfaces only a fixed literal,
and a NotFound propagates unchanged on the empty store. -/
theorem claim_C6_wit :
    NoLeak (CharacterService.update sampleStore 1 {} (some "connection reset by peer")) ∧
    emptyStore.getTask 9 = none ∧
    TaskService.delete emptyStore 9 none =
      Except.error (PyExc.http ⟨404, "Task not found"⟩) := by
  obtain ⟨hno, hprop⟩ := claim_C6
  exact ⟨hno.2.2.2.1 sampleStore 1 {} (some "connection reset by peer"), by decide,
    hprop.2.2.2.2.2.2.2.2.2 emptyStore 9 (by decide)⟩

/-- C7 counterexample: the claim says update applies exactly the
fields literally present in the request body and leaves every absent
field unchanged; but a Task update whose payload carries only a
status of in_progress also rewrites start_date — a field the payload
does not (and cannot) carry — from none to the current time. -/
theorem claim_C7_cex :
    ∃ t s2,
      TaskService.update sampleStore 1 { status := some TaskStatus.in_progress } 500 none =
        Except.ok (t, s2) ∧
      sampleTask.start_date = none ∧ t.start_date = some 500 ∧
      t.start_date ≠ sampleTask.start_date :=
  ⟨_, _, rfl, rfl, rfl, by decide⟩

/-- C7 as amended: update applies exactly the fields present in the
request body and leaves absent fields (including id, created_at and —
for Character — updated_at) unchanged, except that TaskService.update
additionally stamps the server-controlled start_date/end_date fields
when the payload carries a status: in_progress stamps start_date,
completed stamps end_date, and pending or cancelled stamp neither
(cancelled because the code compares against the spelling
"canceled").  An empty payload leaves the entity entirely
unchanged. -/
theorem claim_C7_amended :
    (∀ (s : Store) (id : Int) (u : CharacterUpdate) (c : Character),
       s.getCharacter id = some c →
       ∃ c2 s2, CharacterService.update s id u none = Except.ok (c2, s2) ∧
         (u.name = none → c2.name = c.name) ∧ (∀ v, u.name = some v → c2.name = v) ∧
         (u.village = none → c2.village = c.village) ∧
         (∀ v, u.village = some v → c2.village = v) ∧
         (u.rank = none → c2.rank = c.rank) ∧ (∀ v, u.rank = some v → c2.rank = v) ∧
         c2.id = c.id ∧ c2.created_at = c.created_at ∧ c2.updated_at = c.updated_at ∧
         (u = {} → c2 = c)) ∧
    (∀ (s : Store) (id : Int) (u : TaskUpdate) (now : Nat) (t : Task),
       s.getTask id = some t →
       ∃ t2 s2, TaskService.update s id u now none = Except.ok (t2, s2) ∧
         (u.title = none → t2.title = t.title) ∧ (∀ v, u.title = some v → t2.title = v) ∧
         (u.description = none → t2.description = t.description) ∧
         (∀ v, u.description = some v → t2.description = v) ∧
         (u.priority = none → t2.priority = t.priority) ∧
         (∀ v, u.priority = some v → t2.priority = v) ∧
         (u.status = none → t2.status = t.status) ∧
         (∀ v, u.status = some v → t2.status = v) ∧
         t2.id = t.id ∧ t2.created_at = t.created_at ∧
         (u.status = none → t2.start_date = t.start_date ∧ t2.end_date = t.end_date) ∧
         (u.status = some TaskStatus.in_progress →
            t2.start_date = some now ∧ t2.end_date = t.end_date) ∧
         (u.status = some TaskStatus.completed →
            t2.end_date = some now ∧ t2.start_date = t.start_date) ∧
         (u.status = some TaskStatus.pending ∨ u.status = some TaskStatus.cancelled →
            t2.start_date = t.start_date ∧ t2.end_date = t.end_date) ∧
         (u = {} → t2 = t)) := by
  constructor
  · intro s id u c h
    rcases u with ⟨un, uv, ur⟩
    rw [charUpdate_eval, h]
    refine ⟨_, _, rfl, ?_, ?_, ?_, ?_, ?_, ?_, ?_, ?_, ?_, ?_⟩ <;>
      cases un <;> cases uv <;> cases ur <;>
      simp [Character.applyUpdate]
  · intro s id u now t h
    rcases u with ⟨ut, ud, ust, up⟩
    rw [taskUpdate_eval, h]
    refine ⟨_, _, rfl, ?_, ?_, ?_, ?_, ?_, ?_, ?_, ?_, ?_, ?_, ?_, ?_, ?_, ?_, ?_⟩ <;>
      cases ut <;> cases ud <;> cases up <;>
      rcases ust with _ | st <;>
      (try cases st) <;>
      simp [Task.applyUpdate, Task.stampDates, TaskStatus.pyStr]

/-- Witness for C7 as amended: an empty PATCH on character 1 of the
sample store leaves the row unchanged. -/
theorem claim_C7_wit :
    ∃ c2 s2, CharacterService.update sampleStore 1 {} none = Except.ok (c2, s2) ∧
      (({} : CharacterUpdate).name = none → c2.name = sampleCharacter.name) ∧
      (∀ v, ({} : CharacterUpdate).name = some v → c2.name = v) ∧
      (({} : CharacterUpdate).village = none → c2.village = sampleCharacter.village) ∧
      (∀ v, ({} : CharacterUpdate).village = some v → c2.village = v) ∧
      (({} : CharacterUpdate).rank = none → c2.rank = sampleCharacter.rank) ∧
      (∀ v, ({} : CharacterUpdate).rank = some v → c2.rank = v) ∧
      c2.id = sampleCharacter.id ∧ c2.created_at = sampleCharacter.created_at ∧
      c2.updated_at = sampleCharacter.updated_at ∧
      (({} : CharacterUpdate) = {} → c2 = sampleCharacter) :=
  claim_C7_amended.1 sampleStore 1 {} sampleCharacter (by decide)

/-- C8: a list request whose page exceeds the computed page count
raises no error and returns an envelope with empty items while total
and pages keep the same values as the page-1 request with the same
filter and size — for all three entities. -/
theorem claim_C8 :
    (∀ (s : Store) (page size : Nat) (search : Option String) (r1 : PageResponse Character),
       1 ≤ page → 1 ≤ size →
       CharacterService.get_all s 1 size search none = Except.ok r1 →
       r1.pages < page →
       ∃ r, CharacterService.get_all s page size search none = Except.ok r ∧
         r.items = [] ∧ r.total = r1.total ∧ r.pages = r1.pages) ∧
    (∀ (s : Store) (page size : Nat) (search : Option String) (cid : Option Int)
       (r1 : PageResponse Jutsu),
       1 ≤ page → 1 ≤ size →
       JutsuService.get_all s 1 size search cid none = Except.ok r1 →
       r1.pages < page →
       ∃ r, JutsuService.get_all s page size search cid none = Except.ok r ∧
         r.items = [] ∧ r.total = r1.total ∧ r.pages = r1.pages) ∧
    (∀ (s : Store) (page size : Nat) (search : Option String) (r1 : PageResponse Task),
       1 ≤ page → 1 ≤ size →
       TaskService.get_all s 1 size search none = Except.ok r1 →
       r1.pages < page →
       ∃ r, TaskService.get_all s page size search none = Except.ok r ∧
         r.items = [] ∧ r.total = r1.total ∧ r.pages = r1.pages) := by
  refine ⟨fun s page size search r1 hp hs h1 hlt => ?_,
    fun s page size search cid r1 hp hs h1 hlt => ?_,
    fun s page size search r1 hp hs h1 hlt => ?_⟩
  · have e1 : CharacterService.get_all s 1 size search none =
        Except.ok (paginate (characterQueryRows s search) 1 size) := rfl
    rw [e1] at h1
    injection h1 with h1
    subst h1
    have hlt2 : ((characterQueryRows s search).length + size - 1) / size < page := hlt
    have h2 : (characterQueryRows s search).length ≤ (page - 1) * size :=
      le_trans (ceil_le_mul _ size hs) (Nat.mul_le_mul_right size (Nat.le_pred_of_lt hlt2))
    refine ⟨_, rfl, ?_, rfl, rfl⟩
    show (((characterQueryRows s search).drop ((page - 1) * size)).take size) = []
    rw [List.drop_eq_nil_of_le h2]
    simp
  · have e1 : JutsuService.get_all s 1 size search cid none =
        Except.ok (paginate (jutsuQueryRows s search cid) 1 size) := rfl
    rw [e1] at h1
    injection h1 with h1
    subst h1
    have hlt2 : ((jutsuQueryRows s search cid).length + size - 1) / size < page := hlt
    have h2 : (jutsuQueryRows s search cid).length ≤ (page - 1) * size :=
      le_trans (ceil_le_mul _ size hs) (Nat.mul_le_mul_right size (Nat.le_pred_of_lt hlt2))
    refine ⟨_, rfl, ?_, rfl, rfl⟩
    show (((jutsuQueryRows s search cid).drop ((page - 1) * size)).take size) = []
    rw [List.drop_eq_nil_of_le h2]
    simp
  · have e1 : TaskService.get_all s 1 size search none =
        Except.ok (paginate (taskQueryRows s search) 1 size) := rfl
    rw [e1] at h1
    injection h1 with h1
    subst h1
    have hlt2 : ((taskQueryRows s search).length + size - 1) / size < page := hlt
    have h2 : (taskQueryRows s search).length ≤ (page - 1) * size :=
      le_trans (ceil_le_mul _ size hs) (Nat.mul_le_mul_right size (Nat.le_pred_of_lt hlt2))
    refine ⟨_, rfl, ?_, rfl, rfl⟩
    show (((taskQueryRows s search).drop ((page - 1) * size)).take size) = []
    rw [List.drop_eq_nil_of_le h2]
    simp

/-- Witness for C8: the sample store has one character, so page 5 of
size 10 is past the single page and comes back empty with the same
total and page count. -/
theorem claim_C8_wit :
    ∃ r, CharacterService.get_all sampleStore 5 10 none none = Except.ok r ∧
      r.items = [] ∧
      r.total = (paginate (characterQueryRows sampleStore none) 1 10).total ∧
      r.pages = (paginate (characterQueryRows sampleStore none) 1 10).pages :=
  claim_C8.1 sampleStore 5 10 none (paginate (characterQueryRows sampleStore none) 1 10)
    (by decide) (by decide) rfl (by decide)

/-- C9 counterexample: the claim says a jutsu creation payload may
omit chakra_cost and the created row then carries the default 10 —
but the JutsuCreate schema declares chakra_cost with Field(..., ge=1),
i.e. required, so a payload without it is rejected at the schema
boundary and never reaches the default. -/
theorem claim_C9_cex :
    validateJutsuCreate { name := some "Rasengan", type := some "Ninjutsu" } =
      Except.error (FieldError.missing "chakra_cost") := rfl

/-- C9 as amended: chakra_cost is a required field of the creation
schema — a payload that omits it is rejected at the schema boundary
before any repository call, a supplied value below 1 is likewise
rejected, and every accepted payload carries the supplied
chakra_cost, necessarily ≥ 1; the default of 10 exists only on the
ORM model (a Jutsu row built without an explicit chakra_cost), which
no API creation payload can reach. -/
theorem claim_C9_amended :
    (∀ (p : JutsuPayload) (j : JutsuCreate),
       validateJutsuCreate p = Except.ok j →
       p.chakra_cost = some j.chakra_cost ∧ 1 ≤ j.chakra_cost) ∧
    (∀ p : JutsuPayload, p.chakra_cost = none →
       ∃ e, validateJutsuCreate p = Except.error e) ∧
    (∀ (p : JutsuPayload) (cv : Int), p.chakra_cost = some cv → cv < 1 →
       ∃ e, validateJutsuCreate p = Except.error e) ∧
    ({ id := 0, name := "x", type := "y", created_at := 0, updated_at := 0 : Jutsu }.chakra_cost
      = 10) := by
  refine ⟨?_, ?_, ?_, rfl⟩
  · intro p j h
    rcases p with ⟨pn, pt, pc⟩
    cases pn <;> cases pt <;> cases pc <;> simp only [validateJutsuCreate] at h <;>
      (try split_ifs at h with h1 h2 h3 h4 h5) <;> (try exact Except.noConfusion h)
    injection h with h
    subst h
    exact ⟨rfl, Int.not_lt.mp h5⟩
  · intro p hc
    rcases p with ⟨pn, pt, pc⟩
    cases hc
    cases pn <;> cases pt <;> simp only [validateJutsuCreate] <;>
      (try split_ifs) <;> exact ⟨_, rfl⟩
  · intro p cv hc hlt
    rcases p with ⟨pn, pt, pc⟩
    cases hc
    cases pn <;> cases pt <;> simp only [validateJutsuCreate] <;>
      (try split_ifs) <;> exact ⟨_, rfl⟩

/-- Witness for C9 as amended: the sample payload with chakra_cost 15
validates to the sample creation schema value. -/
theorem claim_C9_wit :
    ({ name := some "Rasengan", type := some "Ninjutsu", chakra_cost := some 15 } :
        JutsuPayload).chakra_cost = some sampleJutsuCreate.chakra_cost ∧
    1 ≤ sampleJutsuCreate.chakra_cost :=
  claim_C9_amended.1 _ sampleJutsuCreate rfl

/-- Distinct keys make the delete predicate hit at most one element
pairwise. -/
theorem pairwise_ne_imp (key : α → Int) (id : Int) (l : List α)
    (hu : l.Pairwise (fun a b => key a ≠ key b)) :
    l.Pairwise (fun a b => ¬(decide (key a = id) = true ∧ decide (key b = id) = true)) := by
  refine hu.imp ?_
  intro a b hab hc
  simp only [decide_eq_true_eq] at hc
  exact hab (hc.1.trans hc.2.symm)

/-- C10: delete on each of the three entity types first fetches the
row and fails with NotFound when the id is absent; when the row
exists it removes exactly that row (membership afterwards is exactly
the other rows, the table shrinks by one), returns nothing, and — for
Character — performs no cascade: the jutsu table is untouched. -/
theorem claim_C10 :
    (∀ (s : Store) (id : Int), s.getCharacter id = none →
       CharacterService.delete s id none =
         Except.error (PyExc.http ⟨404, "Character not found"⟩)) ∧
    (∀ (s : Store) (id : Int), s.getJutsu id = none →
       JutsuService.delete s id none =
         Except.error (PyExc.http ⟨404, "Jutsu not found"⟩)) ∧
    (∀ (s : Store) (id : Int), s.getTask id = none →
       TaskService.delete s id none =
         Except.error (PyExc.http ⟨404, "Task not found"⟩)) ∧
    (∀ (s : Store) (id : Int) (c : Character),
       s.characters.Pairwise (fun a b => a.id ≠ b.id) →
       s.getCharacter id = some c →
       ∃ s2, CharacterService.delete s id none = Except.ok ((), s2) ∧
         s2.jutsus = s.jutsus ∧ s2.tasks = s.tasks ∧
         (∀ x : Character, x ∈ s2.characters ↔ x ∈ s.characters ∧ x.id ≠ id) ∧
         s2.characters.length + 1 = s.characters.length) ∧
    (∀ (s : Store) (id : Int) (j : Jutsu),
       s.jutsus.Pairwise (fun a b => a.id ≠ b.id) →
       s.getJutsu id = some j →
       ∃ s2, JutsuService.delete s id none = Except.ok ((), s2) ∧
         s2.characters = s.characters ∧ s2.tasks = s.tasks ∧
         (∀ x : Jutsu, x ∈ s2.jutsus ↔ x ∈ s.jutsus ∧ x.id ≠ id) ∧
         s2.jutsus.length + 1 = s.jutsus.length) ∧
    (∀ (s : Store) (id : Int) (t : Task),
       s.tasks.Pairwise (fun a b => a.id ≠ b.id) →
       s.getTask id = some t →
       ∃ s2, TaskService.delete s id none = Except.ok ((), s2) ∧
         s2.characters = s.characters ∧ s2.jutsus = s.jutsus ∧
         (∀ x : Task, x ∈ s2.tasks ↔ x ∈ s.tasks ∧ x.id ≠ id) ∧
         s2.tasks.length + 1 = s.tasks.length) := by
  refine ⟨fun s id h => by rw [charDelete_eval, h],
    fun s id h => by rw [jutsuDelete_eval, h],
    fun s id h => by rw [taskDelete_eval, h],
    fun s id c hu h => ?_, fun s id j hu h => ?_, fun s id t hu h => ?_⟩
  · rw [charDelete_eval, h]
    have h2 : s.characters.find? (fun x => decide (x.id = id)) = some c := h
    refine ⟨_, rfl, rfl, rfl, ?_, ?_⟩
    · intro x
      have hiff := removeFirst_mem_iff (fun x : Character => decide (x.id = id)) s.characters
        (pairwise_ne_imp (fun x => x.id) id s.characters hu) x
      simpa [decide_eq_false_iff_not] using hiff
    · have hp := List.find?_some h2
      exact removeFirst_length (fun x : Character => decide (x.id = id)) s.characters c
        (List.mem_of_find?_eq_some h2) hp
  · rw [jutsuDelete_eval, h]
    have h2 : s.jutsus.find? (fun x => decide (x.id = id)) = some j := h
    refine ⟨_, rfl, rfl, rfl, ?_, ?_⟩
    · intro x
      have hiff := removeFirst_mem_iff (fun x : Jutsu => decide (x.id = id)) s.jutsus
        (pairwise_ne_imp (fun x => x.id) id s.jutsus hu) x
      simpa [decide_eq_false_iff_not] using hiff
    · have hp := List.find?_some h2
      exact removeFirst_length (fun x : Jutsu => decide (x.id = id)) s.jutsus j
        (List.mem_of_find?_eq_some h2) hp
  · rw [taskDelete_eval, h]
    have h2 : s.tasks.find? (fun x => decide (x.id = id)) = some t := h
    refine ⟨_, rfl, rfl, rfl, ?_, ?_⟩
    · intro x
      have hiff := removeFirst_mem_iff (fun x : Task => decide (x.id = id)) s.tasks
        (pairwise_ne_imp (fun x => x.id) id s.tasks hu) x
      simpa [decide_eq_false_iff_not] using hiff
    · have hp := List.find?_some h2
      exact removeFirst_length (fun x : Task => decide (x.id = id)) s.tasks t
        (List.mem_of_find?_eq_some h2) hp

/-- Witness for C10: deleting the absent character 9 of the empty
store is a 404; deleting character 1 of the sample store removes that
row and leaves the jutsu table alone. -/
theorem claim_C10_wit :
    (emptyStore.getCharacter 9 = none ∧
     CharacterService.delete emptyStore 9 none =
       Except.error (PyExc.http ⟨404, "Character not found"⟩)) ∧
    (∃ s2, CharacterService.delete sampleStore 1 none = Except.ok ((), s2) ∧
       s2.jutsus = sampleStore.jutsus ∧ s2.tasks = sampleStore.tasks ∧
       (∀ x : Character, x ∈ s2.characters ↔ x ∈ sampleStore.characters ∧ x.id ≠ 1) ∧
       s2.characters.length + 1 = sampleStore.characters.length) :=
  ⟨⟨by decide, claim_C10.1 emptyStore 9 (by decide)⟩,
   claim_C10.2.2.2.1 sampleStore 1 sampleCharacter (by decide) (by decide)⟩

end App
